import Mathlib

/-!
Verification of the HDTF download script (`download.py`).

The script joins four per-subset annotation files (video URLs, crop
rectangles, time intervals, resolutions) into a list of download jobs
(`construct_download_queue`), then processes each job by downloading the
raw video and cutting/cropping each clip (`download_and_process_video`).

The shallow embedding below models:
- Python dicts built by `{l[0]: l[1:] for l in lines}` as association
  lists with first-occurrence key order and last-value-wins semantics;
- Python exceptions (tuple-unpack ValueError, `int()` ValueError,
  dict KeyError, list IndexError) as an `Except PyError` result;
- the external tools (`yt-dlp`, `ffmpeg`) as boolean oracles, with the
  calls made to them recorded as an event trace;
- `urllib.parse.urlparse`/`parse_qs` restricted to the behaviour used by
  the script (query extraction, `&`-separated `k=v` pairs with blank
  values dropped; percent-decoding is omitted, it is the identity on the
  inputs considered here).
-/

/-! String helpers. These mirror the Python string operations used by
the script (`split` on a one-character separator, `strip`, membership);
they are written by structural recursion on the character list of the
string so that concrete runs reduce inside the kernel. -/

/-- Split a character list at every occurrence of `c` (Python
`s.split(c)` for a single-character separator: no collapsing of empty
pieces, the empty string yields one empty piece). -/
def splitChars (c : Char) : List Char → List (List Char)
  | [] => [[]]
  | a :: rest =>
    let r := splitChars c rest
    if a = c then [] :: r
    else
      match r with
      | [] => [[a]]
      | p :: ps => (a :: p) :: ps

/-- Python `s.split(sep)` for a one-character separator. -/
def pySplit (s : String) (sep : Char) : List String :=
  (splitChars sep s.data).map (fun l => String.mk l)

/-- Python `s.strip()`: drop leading and trailing whitespace. -/
def pyStrip (s : String) : String :=
  String.mk (((s.data.dropWhile Char.isWhitespace).reverse.dropWhile
    Char.isWhitespace).reverse)

/-- Join strings with a one-character separator (inverse of `pySplit`,
used to model Python `split(sep, 1)` by re-joining the tail). -/
def joinWith (sep : Char) : List String → String
  | [] => ""
  | [s] => s
  | s :: rest => s ++ String.mk [sep] ++ joinWith sep rest

/-- Python exception kinds that can escape the modelled functions. -/
inductive PyError where
  | valueError
  | keyError
  | indexError
deriving DecidableEq, Repr

/-- A Python dict from string keys to lists of string fields, in
iteration (insertion) order. -/
abbrev Dict := List (String × List String)

/-- Dict lookup: first entry with the given key. -/
def dlookup (d : Dict) (k : String) : Option (List String) :=
  (d.find? (fun p => p.1 == k)).map (fun p => p.2)

/-- One step of Python dict construction: overwrite the value if the key
is present (keeping its position), otherwise append at the end. -/
def dictInsert (d : Dict) (k : String) (v : List String) : Dict :=
  if d.any (fun p => p.1 == k) then
    d.map (fun p => if p.1 == k then (k, v) else p)
  else d ++ [(k, v)]

/-- Python dict-comprehension semantics over a list of pairs. -/
def dictOfPairs (l : List (String × List String)) : Dict :=
  l.foldl (fun d p => dictInsert d p.1 p.2) []

/-- `read_file_as_space_separated_data` (download.py lines 107-112), with
the file contents given as its list of lines (`f.read().splitlines()`):
strip each line, split it on single spaces, strip each token, and build
the dict `{l[0]: l[1:]}`. -/
def read_file_as_space_separated_data (lines : List String) : Dict :=
  dictOfPairs (lines.map (fun l =>
    let toks := (pySplit (pyStrip l) ' ').map (fun v => pyStrip v)
    (toks.headD "", toks.tail)))

/-- The four annotation dicts of one subset (download.py lines 49-52). -/
structure SubsetData where
  video_urls : Dict
  crops : Dict
  intervals : Dict
  resolutions : Dict
deriving Repr

/-- The four annotation files of one subset, as raw lines. -/
structure SubsetFiles where
  video_url : List String
  crop_wh : List String
  annotion_time : List String
  resolution : List String
deriving Repr

/-- Reading the four annotation files of one subset. -/
def loadSubset (sf : SubsetFiles) : SubsetData :=
  { video_urls := read_file_as_space_separated_data sf.video_url
    crops := read_file_as_space_separated_data sf.crop_wh
    intervals := read_file_as_space_separated_data sf.annotion_time
    resolutions := read_file_as_space_separated_data sf.resolution }

/-- `subsets = ["RD", "WDA", "WRA"]` (download.py line 28). -/
def subsets : List String := ["RD", "WDA", "WRA"]

/-- Python `int(s)` on a string (base 10): strip whitespace, optional
sign, then one or more digits; `none` models the ValueError raised
otherwise. (Underscore digit separators are not modelled; none of the
annotation data uses them.) -/
def parsePyInt (s : String) : Option Int :=
  let t := (pyStrip s).data
  let signedCore : Bool × List Char :=
    match t with
    | '-' :: rest => (true, rest)
    | '+' :: rest => (false, rest)
    | l => (false, l)
  let core := signedCore.2
  if core.length ≠ 0 && core.all Char.isDigit then
    let n : Nat := core.foldl (fun acc c => acc * 10 + (c.toNat - 48)) 0
    some (if signedCore.1 then -(n : Int) else (n : Int))
  else none

/-- `list(map(int, cs))`: the first unparseable field raises ValueError. -/
def mapIntList : List String → Except PyError (List Int)
  | [] => .ok []
  | s :: rest =>
    match parsePyInt s with
    | none => .error .valueError
    | some n => (mapIntList rest).map (fun ns => n :: ns)

/-- `[list(map(int, cs)) for cs in clips_crops]` (download.py line 72). -/
def mapInts : List (List String) → Except PyError (List (List Int))
  | [] => .ok []
  | cs :: rest =>
    match mapIntList cs with
    | .error e => .error e
    | .ok zs => (mapInts rest).map (fun l => zs :: l)

/-- The query component of `urlparse`: the part of the URL after the
first `?`, with any fragment (after the first `#`) removed first. -/
def urlQuery (url : String) : String :=
  match pySplit ((pySplit url '#').headD "") '?' with
  | [] => ""
  | [_] => ""
  | _ :: rest => joinWith '?' rest

/-- `urllib.parse.parse_qsl` with default options: split the query on
`&`, split each piece at the first `=`; pieces without `=` or with an
empty value are dropped (keep_blank_values=False). -/
def parse_qsl (qs : String) : List (String × String) :=
  (pySplit qs '&').filterMap (fun nv =>
    match pySplit nv '=' with
    | [] => none
    | [_] => none
    | k :: rest =>
      let v := joinWith '=' rest
      if v = "" then none else some (k, v))

/-- `urllib.parse.parse_qs`: group the pairs of `parse_qsl` by key,
preserving order of first occurrence and of values. -/
def parse_qs (qs : String) : List (String × List String) :=
  (parse_qsl qs).foldl (fun d p =>
    if d.any (fun q => q.1 == p.1) then
      d.map (fun q => if q.1 == p.1 then (q.1, q.2 ++ [p.2]) else q)
    else d ++ [(p.1, [p.2])]) []

/-- `parse.parse_qs(parse.urlparse(video_url).query)['v'][0]`
(download.py line 79): KeyError if `v` is absent from the query. -/
def extractVideoId (video_url : String) : Except PyError String :=
  match (parse_qs (urlQuery video_url)).find? (fun p => p.1 == "v") with
  | none => .error .keyError
  | some p =>
    match p.2 with
    | [] => .error .indexError
    | v :: _ => .ok v

/-- `f'{video_name}_{clip_idx}.mp4'` (download.py line 66). -/
def clipName (video : String) (i : Nat) : String :=
  video ++ "_" ++ toString i ++ ".mp4"

/-- The loop of download.py lines 65-70: walk the split intervals with
their 0-based index; keep the (crop, interval) of each index whose clip
name is a key of the crop dict, in order. -/
def gatherClipsAux (crops : Dict) (video : String) :
    Nat → List (List String) → List (List String) × List (List String)
  | _, [] => ([], [])
  | i, iv :: rest =>
    let r := gatherClipsAux crops video (i + 1) rest
    match dlookup crops (clipName video i) with
    | none => r
    | some c => (c :: r.1, iv :: r.2)

/-- One entry of the download queue (download.py lines 77-84). -/
structure VideoJob where
  name : String
  id : String
  intervals : List (List String)
  crops : List (List Int)
  output_dir : String
  resolution : String
deriving DecidableEq, Repr

/-- The body of the per-video loop of `construct_download_queue`
(download.py lines 55-84), for one video of one subset, after the URL
tuple-unpack has succeeded. `ok none` models `continue` (the video is
skipped), `ok (some job)` models appending the job, `error` models an
uncaught exception. -/
def processVideo (subset output_dir : String) (sd : SubsetData)
    (video_name video_url : String) : Except PyError (Option VideoJob) :=
  match dlookup sd.intervals (video_name ++ ".mp4") with
  | none => .ok none
  | some interval_fields =>
    match dlookup sd.resolutions (video_name ++ ".mp4") with
    | none => .ok none
    | some res_fields =>
      if res_fields.length > 1 then .ok none
      else
        let all_clips_intervals := interval_fields.map (fun x => pySplit x '-')
        let gathered := gatherClipsAux sd.crops video_name 0 all_clips_intervals
        match mapInts gathered.1 with
        | .error e => .error e
        | .ok clips_crops =>
          if clips_crops.length = 0 then .ok none
          else
            match extractVideoId video_url with
            | .error e => .error e
            | .ok vid =>
              match res_fields.get? 0 with
              | none => .error .indexError
              | some res =>
                .ok (some { name := subset ++ "_" ++ video_name
                            id := vid
                            intervals := gathered.2
                            crops := clips_crops
                            output_dir := output_dir
                            resolution := res })

/-- One iteration of `for video_name, (video_url,) in video_urls.items()`
(download.py line 54): the 1-tuple unpack raises ValueError unless the
entry has exactly one value field. -/
def processEntry (subset output_dir : String) (sd : SubsetData)
    (kv : String × List String) : Except PyError (Option VideoJob) :=
  match kv.2 with
  | [video_url] => processVideo subset output_dir sd kv.1 video_url
  | _ => .error .valueError

/-- The per-subset loop over the URL dict entries, collecting the
emitted jobs in order; the first exception aborts the run. -/
def processEntries (subset output_dir : String) (sd : SubsetData) :
    List (String × List String) → Except PyError (List VideoJob)
  | [] => .ok []
  | kv :: rest =>
    match processEntry subset output_dir sd kv with
    | .error e => .error e
    | .ok none => processEntries subset output_dir sd rest
    | .ok (some j) =>
      (processEntries subset output_dir sd rest).map (fun q => j :: q)

/-- Processing of one subset of `construct_download_queue`. -/
def processSubset (output_dir : String) (s : String × SubsetData) :
    Except PyError (List VideoJob) :=
  processEntries s.1 output_dir s.2 s.2.video_urls

/-- `construct_download_queue` (download.py lines 45-86), with the
per-subset annotation dicts passed in place of the files read from
`source_dir`; jobs are concatenated across subsets in order. -/
def construct_download_queue :
    List (String × SubsetData) → String → Except PyError (List VideoJob)
  | [], _ => .ok []
  | s :: rest, out =>
    match processSubset out s with
    | .error e => .error e
    | .ok q1 => (construct_download_queue rest out).map (fun q2 => q1 ++ q2)

/-- `construct_download_queue` with the annotation files given as raw
lines, read through `read_file_as_space_separated_data` exactly as
download.py lines 49-52 do. -/
def construct_download_queue_from_files
    (files : List (String × SubsetFiles)) (output_dir : String) :
    Except PyError (List VideoJob) :=
  construct_download_queue (files.map (fun p => (p.1, loadSubset p.2))) output_dir

/-- `f'{clip_idx:03d}'`: decimal digits zero-padded to width 3. -/
def pad3 (n : Nat) : String :=
  let s := toString n
  if s.length < 3 then String.mk (List.replicate (3 - s.length) '0') ++ s
  else s

/-- `os.path.join(output_dir, '_videos_raw', f"{name}.mp4")`
(download.py line 92), for a relative second component. -/
def rawDownloadPath (output_dir name : String) : String :=
  output_dir ++ "/_videos_raw/" ++ name ++ ".mp4"

/-- `os.path.join(output_dir, f'{name}_{clip_idx:03d}' + '.mp4')`
(download.py lines 100-101). -/
def clipPath (output_dir name : String) (i : Nat) : String :=
  output_dir ++ "/" ++ name ++ "_" ++ pad3 i ++ ".mp4"

/-- A call to one of the two external tools, with its arguments and
reported result: `download_video` (yt-dlp) or `cut_and_crop_video`
(ffmpeg). -/
inductive Event where
  | download (id path resolution : String)
  | cut (rawPath outPath start stop : String) (crop : List Int) (success : Bool)
deriving DecidableEq, Repr

/-- The clip loop of `download_and_process_video` (download.py lines
98-105): for each index of the interval list, unpack
`start, end = intervals[clip_idx]` (ValueError unless the interval has
exactly two elements), index `crops[clip_idx]` (IndexError if out of
range), call `cut_and_crop_video` — modelled by the oracle
`cutOk rawPath outPath start stop crop` — and record the call; a false
result only triggers `continue`, which has no effect on the loop. -/
def processClips (cutOk : String → String → String → String → List Int → Bool)
    (raw output_dir name : String) (crops : List (List Int)) :
    Nat → List (List String) → Except PyError (List Event)
  | _, [] => .ok []
  | i, iv :: rest =>
    match iv with
    | [s, e] =>
      match crops.get? i with
      | none => .error .indexError
      | some c =>
        let p := clipPath output_dir name i
        let crop_success := cutOk raw p s e c
        (processClips cutOk raw output_dir name crops (i + 1) rest).map
          (fun evs => Event.cut raw p s e c crop_success :: evs)
    | _ => .error .valueError

/-- `download_and_process_video` (download.py lines 91-105), with
`download_video` modelled by the oracle `dl id rawPath resolution` and
`cut_and_crop_video` by the oracle `cutOk`; returns the trace of
external calls, or the Python exception that escaped. -/
def download_and_process_video
    (dl : String → String → String → Bool)
    (cutOk : String → String → String → String → List Int → Bool)
    (video_data : VideoJob) (output_dir : String) :
    Except PyError (List Event) :=
  let raw := rawDownloadPath output_dir video_data.name
  let download_result := dl video_data.id raw video_data.resolution
  let ev := Event.download video_data.id raw video_data.resolution
  if download_result then
    (processClips cutOk raw output_dir video_data.name video_data.crops
        0 video_data.intervals).map (fun evs => ev :: evs)
  else .ok [ev]

/-- The worker pool of `download_hdtf` (download.py lines 36-40): each
job is processed independently by `download_and_process_video`; the pool
only collects per-job outcomes. -/
def runPool (dl : String → String → String → Bool)
    (cutOk : String → String → String → String → List Int → Bool)
    (output_dir : String) (jobs : List VideoJob) :
    List (Except PyError (List Event)) :=
  jobs.map (fun j => download_and_process_video dl cutOk j output_dir)

/-- The trace the clip loop produces when every interval is a two-element
pair and every clip index is within the crop list: one `cut` call per
clip, in index order, regardless of the per-call results. -/
def expectedCuts (cutOk : String → String → String → String → List Int → Bool)
    (raw output_dir name : String) (crops : List (List Int)) :
    Nat → List (List String) → List Event
  | _, [] => []
  | i, iv :: rest =>
    let s := iv.headD ""
    let e := iv.getD 1 ""
    let c := (crops.get? i).getD []
    let p := clipPath output_dir name i
    Event.cut raw p s e c (cutOk raw p s e c) ::
      expectedCuts cutOk raw output_dir name crops (i + 1) rest

/-- C1 helper: the single-subset scenario of the end-to-end spec test. -/
def scenarioC1 : SubsetData :=
  { video_urls := [("v1", ["https://youtube.com/watch?v=abc123"])]
    crops := [("v1_0.mp4", ["0", "100", "0", "100"])]
    intervals := [("v1.mp4", ["00:00-00:05", "00:10-00:15"])]
    resolutions := [("v1.mp4", ["720"])] }

/-- A concrete one-clip job, used to instantiate the processing
theorems. -/
def jobOneClip : VideoJob :=
  { name := "X_v1"
    id := "abc123"
    intervals := [["00:00", "00:05"]]
    crops := [[0, 100, 0, 100]]
    output_dir := "out"
    resolution := "720" }

/-- A concrete three-clip job, used to instantiate the per-clip
independence theorem. -/
def jobThreeClips : VideoJob :=
  { name := "X_v2"
    id := "xyz789"
    intervals := [["00:00", "00:05"], ["00:10", "00:15"], ["00:20", "00:25"]]
    crops := [[0, 100, 0, 100], [1, 2, 3, 4], [5, 6, 7, 8]]
    output_dir := "out"
    resolution := "480" }

/-- An extraction oracle that reports failure exactly on clip index 1 of
`jobThreeClips` (its output path), success elsewhere. -/
def cutFailsOnIdx1 (raw p s e : String) (c : List Int) : Bool :=
  let _ := (raw, s, e, c)
  !(p == clipPath "out" "X_v2" 1)

/-- Spec-side description of a job's clip list (spec §3, §4.1 step d and
§8): enumerate the split intervals with their 0-based index in file
order, keep exactly the indices whose clip name `{video}_{index}.mp4` is
a crop key, pairing each kept interval with its crop entry — no
reordering, no renumbering. To be compared with the loop
`gatherClipsAux` translated from the code. -/
def clipsSpec (crops : Dict) (video : String) (ivs : List (List String)) :
    List (List String × List String) :=
  ivs.enum.filterMap (fun p =>
    match dlookup crops (clipName video p.1) with
    | none => none
    | some c => some (c, p.2))

/-- C2 counterexample input: the crop file's line for `v1_0.mp4` has
three value fields instead of four, and the resolution file's line for
`v2.mp4` has two value fields instead of one. -/
def filesC2 : SubsetFiles :=
  { video_url := ["v1 https://youtube.com/watch?v=abc123",
                  "v2 https://youtube.com/watch?v=def456"]
    crop_wh := ["v1_0.mp4 0 100 0"]
    annotion_time := ["v1.mp4 00:00-00:05", "v2.mp4 00:10-00:15"]
    resolution := ["v1.mp4 720", "v2.mp4 720 1080"] }

/-- The job the code emits for `filesC2`: the malformed three-field crop
line is accepted verbatim. -/
def jobC2 : VideoJob :=
  { name := "X_v1"
    id := "abc123"
    intervals := [["00:00", "00:05"]]
    crops := [[0, 100, 0]]
    output_dir := "out"
    resolution := "720" }

/-- C8 counterexample input: the interval field of `v1.mp4` contains no
`-` separator. -/
def sdC8 : SubsetData :=
  { video_urls := [("v1", ["https://youtube.com/watch?v=abc123"])]
    crops := [("v1_0.mp4", ["0", "100", "0", "100"])]
    intervals := [("v1.mp4", ["000005"])]
    resolutions := [("v1.mp4", ["720"])] }

/-- The job the code emits for `sdC8`: its single interval is the
one-element list `["000005"]`, not a (start, end) pair. -/
def jobC8 : VideoJob :=
  { name := "X_v1"
    id := "abc123"
    intervals := [["000005"]]
    crops := [[0, 100, 0, 100]]
    output_dir := "out"
    resolution := "720" }

/-- C9 counterexample input: the crop entry of clip 0 is
`x=-5, width=0, y=3, height=0`. -/
def sdC9 : SubsetData :=
  { video_urls := [("v1", ["https://youtube.com/watch?v=abc123"])]
    crops := [("v1_0.mp4", ["-5", "0", "3", "0"])]
    intervals := [("v1.mp4", ["00:00-00:05"])]
    resolutions := [("v1.mp4", ["720"])] }

/-- The job the code emits for `sdC9`: a negative x offset and zero
width/height pass through unchecked. -/
def jobC9 : VideoJob :=
  { name := "X_v1"
    id := "abc123"
    intervals := [["00:00", "00:05"]]
    crops := [[-5, 0, 3, 0]]
    output_dir := "out"
    resolution := "720" }

/-- C3 witness input: `v1`'s resolution entry has two fields. -/
def sdC3 : SubsetData :=
  { video_urls := [("v1", ["https://youtube.com/watch?v=abc123"])]
    crops := [("v1_0.mp4", ["0", "100", "0", "100"])]
    intervals := [("v1.mp4", ["00:00-00:05"])]
    resolutions := [("v1.mp4", ["720", "1080"])] }

/-- C10 witness input: `v1`'s resolution line carries zero value
fields. -/
def sdC10 : SubsetData :=
  { video_urls := [("v1", ["https://youtube.com/watch?v=abc123"])]
    crops := [("v1_0.mp4", ["0", "100", "0", "100"])]
    intervals := [("v1.mp4", ["00:00-00:05"])]
    resolutions := [("v1.mp4", [])] }

/- Helper lemmas about the embedded operations. -/

/-- The clip loop neither raises nor skips when every interval is a
two-element pair and the crop list covers every index: it performs one
`cut` call per clip, in index order, whatever the oracle answers. -/
theorem processClips_eq_expectedCuts
    (cutOk : String → String → String → String → List Int → Bool)
    (raw output_dir name : String) (crops : List (List Int)) :
    ∀ (ivs : List (List String)) (i : Nat),
      (∀ iv ∈ ivs, iv.length = 2) → i + ivs.length ≤ crops.length →
      processClips cutOk raw output_dir name crops i ivs =
        .ok (expectedCuts cutOk raw output_dir name crops i ivs) := by
  intro ivs
  induction ivs with
  | nil => intro i _ _; rfl
  | cons iv rest ih =>
    intro i hlen hcl
    have h2 : iv.length = 2 := hlen iv (by simp)
    match iv, h2 with
    | [s, e], _ =>
      have hi : i < crops.length := by
        simp only [List.length_cons] at hcl
        omega
      obtain ⟨c, hc⟩ : ∃ c, crops.get? i = some c :=
        ⟨crops.get ⟨i, hi⟩, List.get?_eq_get hi⟩
      have hrest : ∀ iv2 ∈ rest, iv2.length = 2 := by
        intro iv2 hm
        exact hlen iv2 (by simp [hm])
      have hcl2 : i + 1 + rest.length ≤ crops.length := by
        simp only [List.length_cons] at hcl
        omega
      simp only [processClips, hc, expectedCuts, ih (i + 1) hrest hcl2,
        Except.map, Option.getD_some, List.headD_cons, List.getD_cons_succ,
        List.getD_cons_zero]

/-- `expectedCuts` has exactly one entry per interval. -/
theorem expectedCuts_length
    (cutOk : String → String → String → String → List Int → Bool)
    (raw output_dir name : String) (crops : List (List Int)) :
    ∀ (ivs : List (List String)) (i : Nat),
      (expectedCuts cutOk raw output_dir name crops i ivs).length = ivs.length := by
  intro ivs
  induction ivs with
  | nil => intro i; rfl
  | cons iv rest ih =>
    intro i
    simp only [expectedCuts, List.length_cons, ih (i + 1)]

/-- C1: for the single subset `X` with one video `v1` (URL query
`v=abc123`, resolution field `720`, intervals `00:00-00:05` and
`00:10-00:15`, crop entry only for clip index 0), the queue is exactly
one job named `X_v1` with id `abc123`, resolution `720`, and a single
(interval, crop) pair whose interval is `(00:00, 00:05)`; nothing from
interval index 1 appears. -/
theorem C1_end_to_end :
    construct_download_queue [("X", scenarioC1)] "out" =
      .ok [{ name := "X_v1"
             id := "abc123"
             intervals := [["00:00", "00:05"]]
             crops := [[0, 100, 0, 100]]
             output_dir := "out"
             resolution := "720" }] := by
  rfl

/-- C6: when `download_video` reports failure for a job, the job is
abandoned: the trace holds only the download call (zero
`cut_and_crop_video` calls), no error is raised, and the job's presence
anywhere in the pool's queue leaves every other job's processing
unchanged. -/
theorem C6_download_failure_abandons_job
    (dl : String → String → String → Bool)
    (cutOk : String → String → String → String → List Int → Bool)
    (out : String) (j : VideoJob)
    (h : dl j.id (rawDownloadPath out j.name) j.resolution = false) :
    download_and_process_video dl cutOk j out =
      .ok [Event.download j.id (rawDownloadPath out j.name) j.resolution] ∧
    ∀ pre post : List VideoJob,
      runPool dl cutOk out (pre ++ j :: post) =
        runPool dl cutOk out pre ++
          download_and_process_video dl cutOk j out ::
            runPool dl cutOk out post := by
  constructor
  · simp [download_and_process_video, h]
  · intro pre post
    simp [runPool]

theorem C6_download_failure_abandons_job_witness :
    download_and_process_video (fun _ _ _ => false) (fun _ _ _ _ _ => true)
        jobOneClip "out" =
      .ok [Event.download jobOneClip.id (rawDownloadPath "out" jobOneClip.name)
            jobOneClip.resolution] ∧
    runPool (fun _ _ _ => false) (fun _ _ _ _ _ => true) "out"
        ([jobThreeClips] ++ jobOneClip :: [jobThreeClips]) =
      runPool (fun _ _ _ => false) (fun _ _ _ _ _ => true) "out" [jobThreeClips] ++
        download_and_process_video (fun _ _ _ => false) (fun _ _ _ _ _ => true)
            jobOneClip "out" ::
          runPool (fun _ _ _ => false) (fun _ _ _ _ _ => true) "out" [jobThreeClips] :=
  ⟨(C6_download_failure_abandons_job (fun _ _ _ => false) (fun _ _ _ _ _ => true)
      "out" jobOneClip rfl).1,
   (C6_download_failure_abandons_job (fun _ _ _ => false) (fun _ _ _ _ _ => true)
      "out" jobOneClip rfl).2 [jobThreeClips] [jobThreeClips]⟩

/-- C7: when the download succeeds, the clip loop makes exactly one
`cut_and_crop_video` call per clip, in clip-index order; the trace shape
is the same for every extraction oracle, so a false result on clip `i`
never suppresses the attempt on any later clip `j > i` of the same
job. -/
theorem C7_clip_failures_independent
    (dl : String → String → String → Bool)
    (cutOk : String → String → String → String → List Int → Bool)
    (out : String) (j : VideoJob)
    (hdl : dl j.id (rawDownloadPath out j.name) j.resolution = true)
    (hiv : ∀ iv ∈ j.intervals, iv.length = 2)
    (hcl : j.intervals.length ≤ j.crops.length) :
    download_and_process_video dl cutOk j out =
      .ok (Event.download j.id (rawDownloadPath out j.name) j.resolution ::
        expectedCuts cutOk (rawDownloadPath out j.name) out j.name j.crops
          0 j.intervals) ∧
    (expectedCuts cutOk (rawDownloadPath out j.name) out j.name j.crops
        0 j.intervals).length = j.intervals.length := by
  constructor
  · have hp := processClips_eq_expectedCuts cutOk (rawDownloadPath out j.name)
      out j.name j.crops j.intervals 0 hiv (by omega)
    simp [download_and_process_video, hdl, hp, Except.map]
  · exact expectedCuts_length cutOk (rawDownloadPath out j.name) out j.name
      j.crops j.intervals 0

theorem C7_clip_failures_independent_witness :
    download_and_process_video (fun _ _ _ => true) cutFailsOnIdx1
        jobThreeClips "out" =
      .ok (Event.download jobThreeClips.id
            (rawDownloadPath "out" jobThreeClips.name) jobThreeClips.resolution ::
        expectedCuts cutFailsOnIdx1 (rawDownloadPath "out" jobThreeClips.name)
          "out" jobThreeClips.name jobThreeClips.crops 0 jobThreeClips.intervals) ∧
    (expectedCuts cutFailsOnIdx1 (rawDownloadPath "out" jobThreeClips.name)
        "out" jobThreeClips.name jobThreeClips.crops 0
        jobThreeClips.intervals).length = jobThreeClips.intervals.length :=
  C7_clip_failures_independent (fun _ _ _ => true) cutFailsOnIdx1 "out"
    jobThreeClips rfl (by decide) (by decide)

/-- `mapInts` preserves length on success. -/
theorem mapInts_ok_length :
    ∀ {l : List (List String)} {zs : List (List Int)},
      mapInts l = .ok zs → zs.length = l.length := by
  intro l
  induction l with
  | nil =>
    intro zs h
    simp only [mapInts, Except.ok.injEq] at h
    subst h
    rfl
  | cons cs rest ih =>
    intro zs h
    simp only [mapInts] at h
    split at h
    · exact absurd h (by simp)
    next zs0 hm =>
      cases hr : mapInts rest with
      | error e =>
        rw [hr] at h
        exact absurd h (by simp [Except.map])
      | ok tail =>
        rw [hr] at h
        simp only [Except.map, Except.ok.injEq] at h
        subst h
        simp [ih hr]

/-- The code's clip-gathering loop computes exactly the spec-side
filtered enumeration, from any starting index. -/
theorem gatherClipsAux_eq_filterMap (crops : Dict) (v : String) :
    ∀ (ivs : List (List String)) (i : Nat),
      gatherClipsAux crops v i ivs =
        (((ivs.enumFrom i).filterMap (fun p =>
            match dlookup crops (clipName v p.1) with
            | none => none
            | some c => some (c, p.2))).map Prod.fst,
         ((ivs.enumFrom i).filterMap (fun p =>
            match dlookup crops (clipName v p.1) with
            | none => none
            | some c => some (c, p.2))).map Prod.snd) := by
  intro ivs
  induction ivs with
  | nil => intro i; rfl
  | cons iv rest ih =>
    intro i
    simp only [gatherClipsAux, List.enumFrom, List.filterMap_cons]
    cases hd : dlookup crops (clipName v i) with
    | none => simp [hd, ih (i + 1)]
    | some c => simp [hd, ih (i + 1)]

/-- The clip-gathering loop started at index 0 computes the two
projections of `clipsSpec`. -/
theorem gatherClipsAux_zero_eq_clipsSpec
    (crops : Dict) (v : String) (ivs : List (List String)) :
    gatherClipsAux crops v 0 ivs =
      ((clipsSpec crops v ivs).map Prod.fst,
       (clipsSpec crops v ivs).map Prod.snd) :=
  gatherClipsAux_eq_filterMap crops v ivs 0

/-- The intervals kept by the gathering loop form a subsequence of the
split intervals: original order, gaps removed, nothing else. -/
theorem gatherClipsAux_snd_sublist (crops : Dict) (v : String) :
    ∀ (ivs : List (List String)) (i : Nat),
      (gatherClipsAux crops v i ivs).2.Sublist ivs := by
  intro ivs
  induction ivs with
  | nil => intro i; simp [gatherClipsAux]
  | cons iv rest ih =>
    intro i
    simp only [gatherClipsAux]
    cases hd : dlookup crops (clipName v i) with
    | none => exact (ih (i + 1)).cons iv
    | some c => exact (ih (i + 1)).cons₂ iv

/-- Inversion of the per-video join: an emitted job's clip data is the
`clipsSpec` join of its interval entry, its crop list is the integer
parse of the matched crop entries, and it is non-empty. -/
theorem processVideo_ok_some_inv {subset out v u : String} {sd : SubsetData}
    {j : VideoJob} (h : processVideo subset out sd v u = .ok (some j)) :
    ∃ ivf, dlookup sd.intervals (v ++ ".mp4") = some ivf ∧
      j.intervals =
        (clipsSpec sd.crops v (ivf.map (fun x => pySplit x '-'))).map Prod.snd ∧
      mapInts ((clipsSpec sd.crops v (ivf.map (fun x => pySplit x '-'))).map
        Prod.fst) = .ok j.crops ∧
      j.crops ≠ [] ∧ j.intervals.length = j.crops.length ∧
      j.intervals.Sublist (ivf.map (fun x => pySplit x '-')) := by
  simp only [processVideo, gatherClipsAux_zero_eq_clipsSpec] at h
  split at h
  · exact absurd h (by simp)
  next ivf hIv =>
    split at h
    · exact absurd h (by simp)
    next rfs hres =>
      split at h
      · exact absurd h (by simp)
      next hlen =>
        split at h
        · exact absurd h (by simp)
        next cc hmi =>
          split at h
          · exact absurd h (by simp)
          next hcc =>
            split at h
            · exact absurd h (by simp)
            next vid hvid =>
              split at h
              · exact absurd h (by simp)
              next res hres0 =>
                simp only [Except.ok.injEq, Option.some.injEq] at h
                subst h
                refine ⟨ivf, hIv, rfl, hmi, ?_, ?_, ?_⟩
                · intro hnil
                  apply hcc
                  simpa using congrArg List.length hnil
                · have h2 := mapInts_ok_length hmi
                  simpa using h2.symm
                · have hs := gatherClipsAux_snd_sublist sd.crops v
                    (ivf.map (fun x => pySplit x '-')) 0
                  rw [gatherClipsAux_zero_eq_clipsSpec] at hs
                  exact hs

/-- Inversion of one URL-dict iteration: a job is only emitted from an
entry with exactly one value field, through `processVideo`. -/
theorem processEntry_ok_some_inv {s out : String} {sd : SubsetData}
    {kv : String × List String} {j : VideoJob}
    (h : processEntry s out sd kv = .ok (some j)) :
    ∃ u, kv.2 = [u] ∧ processVideo s out sd kv.1 u = .ok (some j) := by
  unfold processEntry at h
  split at h
  next u heq => exact ⟨u, heq, h⟩
  next hne => exact absurd h (by simp)

/-- Inversion of the per-subset loop: every job of its output comes from
some URL-dict entry that emitted it. -/
theorem processEntries_ok_mem {s out : String} {sd : SubsetData} :
    ∀ {entries : List (String × List String)} {q : List VideoJob},
      processEntries s out sd entries = .ok q →
      ∀ j ∈ q, ∃ kv ∈ entries, processEntry s out sd kv = .ok (some j) := by
  intro entries
  induction entries with
  | nil =>
    intro q h j hj
    simp only [processEntries, Except.ok.injEq] at h
    subst h
    exact absurd hj (by simp)
  | cons kv rest ih =>
    intro q h j hj
    simp only [processEntries] at h
    split at h
    · exact absurd h (by simp)
    · obtain ⟨kv2, hm, hp⟩ := ih h j hj
      exact ⟨kv2, by simp [hm], hp⟩
    next j0 hj0 =>
      cases hr : processEntries s out sd rest with
      | error e =>
        rw [hr] at h
        exact absurd h (by simp [Except.map])
      | ok q2 =>
        rw [hr] at h
        simp only [Except.map, Except.ok.injEq] at h
        subst h
        rcases List.mem_cons.mp hj with rfl | hj2
        · exact ⟨kv, by simp, hj0⟩
        · obtain ⟨kv2, hm, hp⟩ := ih hr j hj2
          exact ⟨kv2, by simp [hm], hp⟩

/-- Inversion of the whole queue construction: every job of the queue
comes from some subset and some URL-dict entry that emitted it. -/
theorem construct_ok_mem :
    ∀ {data : List (String × SubsetData)} {out : String} {q : List VideoJob},
      construct_download_queue data out = .ok q →
      ∀ j ∈ q, ∃ p ∈ data, ∃ kv ∈ p.2.video_urls,
        processEntry p.1 out p.2 kv = .ok (some j) := by
  intro data
  induction data with
  | nil =>
    intro out q h j hj
    simp only [construct_download_queue, Except.ok.injEq] at h
    subst h
    exact absurd hj (by simp)
  | cons s rest ih =>
    intro out q h j hj
    simp only [construct_download_queue] at h
    split at h
    · exact absurd h (by simp)
    next q1 hq1 =>
      cases hr : construct_download_queue rest out with
      | error e =>
        rw [hr] at h
        exact absurd h (by simp [Except.map])
      | ok q2 =>
        rw [hr] at h
        simp only [Except.map, Except.ok.injEq] at h
        subst h
        unfold processSubset at hq1
        rcases List.mem_append.mp hj with h1 | h2
        · obtain ⟨kv, hkv, hp⟩ := processEntries_ok_mem hq1 j h1
          exact ⟨s, by simp, kv, hkv, hp⟩
        · obtain ⟨p, hp, kv, hkv, hpe⟩ := ih hr j h2
          exact ⟨p, by simp [hp], kv, hkv, hpe⟩

/-- C3: a video present in the URL mapping whose resolution entry is
missing (key `{video}.mp4`) or has more than one value field is skipped
without raising: its iteration yields no job and no error, and removing
it from the URL dict leaves the rest of the subset's output unchanged. -/
theorem C3_missing_or_ambiguous_resolution_excluded
    (subset out video_name video_url : String) (sd : SubsetData)
    (rest : List (String × List String))
    (h : dlookup sd.resolutions (video_name ++ ".mp4") = none ∨
         ∃ fs, dlookup sd.resolutions (video_name ++ ".mp4") = some fs ∧
           fs.length > 1) :
    processEntry subset out sd (video_name, [video_url]) = .ok none ∧
    processEntries subset out sd ((video_name, [video_url]) :: rest) =
      processEntries subset out sd rest := by
  have h1 : processEntry subset out sd (video_name, [video_url]) = .ok none := by
    show processVideo subset out sd video_name video_url = .ok none
    cases hIv : dlookup sd.intervals (video_name ++ ".mp4") with
    | none => simp [processVideo, hIv]
    | some ivf =>
      rcases h with hn | ⟨fs, hf, hflen⟩
      · simp [processVideo, hIv, hn]
      · simp [processVideo, hIv, hf, hflen]
  refine ⟨h1, ?_⟩
  simp [processEntries, h1]

theorem C3_missing_or_ambiguous_resolution_excluded_witness :
    processEntry "X" "out" sdC3
        ("v1", ["https://youtube.com/watch?v=abc123"]) = .ok none ∧
    processEntries "X" "out" sdC3
        (("v1", ["https://youtube.com/watch?v=abc123"]) :: []) =
      processEntries "X" "out" sdC3 [] :=
  C3_missing_or_ambiguous_resolution_excluded "X" "out" "v1"
    "https://youtube.com/watch?v=abc123" sdC3 []
    (Or.inr ⟨["720", "1080"], rfl, by decide⟩)

/-- C4: every job of the returned queue has a non-empty clip list — a
video none of whose interval indices matched a crop entry was dropped
before emission, so both its crop list and its interval list are
non-empty. -/
theorem C4_emitted_jobs_have_clips (data : List (String × SubsetData))
    (out : String) (q : List VideoJob)
    (h : construct_download_queue data out = .ok q) :
    ∀ j ∈ q, j.crops ≠ [] ∧ j.intervals ≠ [] := by
  intro j hj
  obtain ⟨p, _, kv, _, hpe⟩ := construct_ok_mem h j hj
  obtain ⟨u, _, hpv⟩ := processEntry_ok_some_inv hpe
  obtain ⟨ivf, _, _, _, hcc, hlen, _⟩ := processVideo_ok_some_inv hpv
  refine ⟨hcc, ?_⟩
  intro hnil
  apply hcc
  apply List.length_eq_zero.mp
  rw [← hlen, hnil]
  rfl

theorem C4_emitted_jobs_have_clips_witness :
    jobOneClip.crops ≠ [] ∧ jobOneClip.intervals ≠ [] :=
  C4_emitted_jobs_have_clips [("X", scenarioC1)] "out" [jobOneClip] rfl
    jobOneClip (by simp)

/-- C5: the clips of an emitted job are exactly the spec-side filtered
enumeration `clipsSpec`: the split intervals whose 0-based index has a
matching crop key, kept in ascending index order with the crops aligned
one-to-one; the emitted interval list is a subsequence of the full split
interval list (no reordering, no renumbering). -/
theorem C5_clip_order_preserved (subset out v u r vid : String)
    (sd : SubsetData) (ivf : List String) (cc : List (List Int))
    (h1 : dlookup sd.intervals (v ++ ".mp4") = some ivf)
    (h2 : dlookup sd.resolutions (v ++ ".mp4") = some [r])
    (h3 : mapInts ((clipsSpec sd.crops v
      (ivf.map (fun x => pySplit x '-'))).map Prod.fst) = .ok cc)
    (h4 : cc ≠ [])
    (h5 : extractVideoId u = .ok vid) :
    processVideo subset out sd v u =
      .ok (some { name := subset ++ "_" ++ v
                  id := vid
                  intervals := (clipsSpec sd.crops v
                    (ivf.map (fun x => pySplit x '-'))).map Prod.snd
                  crops := cc
                  output_dir := out
                  resolution := r }) ∧
    ((clipsSpec sd.crops v (ivf.map (fun x => pySplit x '-'))).map
        Prod.snd).Sublist (ivf.map (fun x => pySplit x '-')) := by
  constructor
  · have hcc : ¬cc.length = 0 := by
      simpa [List.length_eq_zero] using h4
    simp [processVideo, h1, h2, gatherClipsAux_zero_eq_clipsSpec, h3, hcc, h5]
  · have hs := gatherClipsAux_snd_sublist sd.crops v
      (ivf.map (fun x => pySplit x '-')) 0
    rw [gatherClipsAux_zero_eq_clipsSpec] at hs
    exact hs

theorem C5_clip_order_preserved_witness :
    processVideo "X" "out" scenarioC1 "v1" "https://youtube.com/watch?v=abc123" =
      .ok (some { name := "X" ++ "_" ++ "v1"
                  id := "abc123"
                  intervals := (clipsSpec scenarioC1.crops "v1"
                    (["00:00-00:05", "00:10-00:15"].map
                      (fun x => pySplit x '-'))).map Prod.snd
                  crops := [[0, 100, 0, 100]]
                  output_dir := "out"
                  resolution := "720" }) ∧
    ((clipsSpec scenarioC1.crops "v1" (["00:00-00:05", "00:10-00:15"].map
        (fun x => pySplit x '-'))).map Prod.snd).Sublist
      (["00:00-00:05", "00:10-00:15"].map (fun x => pySplit x '-')) :=
  C5_clip_order_preserved "X" "out" "v1" "https://youtube.com/watch?v=abc123"
    "720" "abc123" scenarioC1 ["00:00-00:05", "00:10-00:15"]
    [[0, 100, 0, 100]] rfl rfl rfl (by decide) rfl

/-- C10: an otherwise-eligible video (URL entry with one field whose
query has a `v` parameter, interval entry present, at least one matched
and parseable crop) whose resolution entry exists but has zero value
fields is not skipped: the `len > 1` ambiguity check passes and building
the job indexes element 0 of the empty field list, so the joiner raises
IndexError. -/
theorem C10_empty_resolution_fields_index_error (subset out v u vid : String)
    (sd : SubsetData) (ivf : List String) (cc : List (List Int))
    (h1 : dlookup sd.intervals (v ++ ".mp4") = some ivf)
    (h2 : dlookup sd.resolutions (v ++ ".mp4") = some [])
    (h3 : mapInts ((clipsSpec sd.crops v
      (ivf.map (fun x => pySplit x '-'))).map Prod.fst) = .ok cc)
    (h4 : cc ≠ [])
    (h5 : extractVideoId u = .ok vid) :
    processVideo subset out sd v u = .error .indexError ∧
    processEntry subset out sd (v, [u]) = .error .indexError := by
  have hcc : ¬cc.length = 0 := by
    simpa [List.length_eq_zero] using h4
  have hmain : processVideo subset out sd v u = .error .indexError := by
    simp [processVideo, h1, h2, gatherClipsAux_zero_eq_clipsSpec, h3, hcc, h5]
  exact ⟨hmain, hmain⟩

theorem C10_empty_resolution_fields_index_error_witness :
    processVideo "X" "out" sdC10 "v1" "https://youtube.com/watch?v=abc123" =
      .error .indexError ∧
    processEntry "X" "out" sdC10
        ("v1", ["https://youtube.com/watch?v=abc123"]) = .error .indexError :=
  C10_empty_resolution_fields_index_error "X" "out" "v1"
    "https://youtube.com/watch?v=abc123" "abc123" sdC10 ["00:00-00:05"]
    [[0, 100, 0, 100]] rfl rfl rfl (by decide) rfl

/-- C2 counterexample: with a crop line carrying three value fields and
a resolution line carrying two, the read-and-join runs to completion
with no error of any kind — the malformed crop line is silently accepted
into the emitted job (`jobC2.crops = [[0, 100, 0]]`) and the video with
the malformed resolution line is silently excluded, contradicting the
claim that a field-count mismatch in any annotation file aborts the
run. -/
theorem C2_counterexample :
    construct_download_queue_from_files [("X", filesC2)] "out" =
      .ok [jobC2] := rfl

/-- C2 amended: only the URL file's lines have their field count
enforced as a fatal parse failure — an entry with other than exactly one
value field raises ValueError at the loop's tuple unpack, aborting the
run. The other files' field counts are not parse-checked: a crop line of
wrong arity is silently accepted into the emitted job and a resolution
line with extra fields is silently excluded (both shown by the C2
counterexample); a resolution line with zero value fields is neither —
for an otherwise-eligible video it raises IndexError later in the join,
as C10 proves. -/
theorem C2_amended_url_field_count_fatal (subset out : String)
    (sd : SubsetData) (k : String) (fs : List String)
    (rest : List (String × List String)) (h : fs.length ≠ 1) :
    processEntry subset out sd (k, fs) = .error .valueError ∧
    processEntries subset out sd ((k, fs) :: rest) = .error .valueError := by
  have h1 : processEntry subset out sd (k, fs) = .error .valueError := by
    cases fs with
    | nil => rfl
    | cons a l =>
      cases l with
      | nil => exact absurd rfl h
      | cons b l2 => rfl
  refine ⟨h1, ?_⟩
  simp [processEntries, h1]

theorem C2_amended_url_field_count_fatal_witness :
    processEntry "X" "out" sdC3 ("v9", ["u1", "u2"]) = .error .valueError ∧
    processEntries "X" "out" sdC3 (("v9", ["u1", "u2"]) :: []) =
      .error .valueError :=
  C2_amended_url_field_count_fatal "X" "out" sdC3 "v9" ["u1", "u2"] []
    (by decide)

/-- C8 counterexample: the interval field `000005` contains no `-`, so
the joiner emits a job whose interval is the one-element list
`["000005"]` — not a (start, end) pair — and the per-clip unpack in
`download_and_process_video` raises ValueError. -/
theorem C8_counterexample :
    construct_download_queue [("X", sdC8)] "out" = .ok [jobC8] ∧
    jobC8.intervals = [["000005"]] ∧
    ¬(["000005"].length = 2) ∧
    download_and_process_video (fun _ _ _ => true) (fun _ _ _ _ _ => true)
        jobC8 "out" = .error .valueError :=
  ⟨rfl, rfl, by decide, rfl⟩

/-- C8 amended: the joiner performs no check on the split arity, so the
claim holds only under the precondition that every interval field of the
interval annotation contains exactly one `-`; under it, every emitted
interval is a two-element (start, end) pair, intervals and crops are
index-aligned, and the per-clip unpacking in
`download_and_process_video` always succeeds. -/
theorem C8_amended_intervals_pairs_under_single_separator
    (data : List (String × SubsetData)) (out : String) (q : List VideoJob)
    (hsep : ∀ p ∈ data, ∀ kv ∈ p.2.intervals, ∀ f ∈ kv.2,
      (pySplit f '-').length = 2)
    (h : construct_download_queue data out = .ok q) :
    ∀ j ∈ q, (∀ iv ∈ j.intervals, iv.length = 2) ∧
      j.intervals.length = j.crops.length ∧
      ∀ dl cutOk out2,
        (download_and_process_video dl cutOk j out2).isOk = true := by
  intro j hj
  obtain ⟨p, hp, kv, hkv, hpe⟩ := construct_ok_mem h j hj
  obtain ⟨u, hu, hpv⟩ := processEntry_ok_some_inv hpe
  obtain ⟨ivf, hIv, hints, hmi, hcc, hlen, hsub⟩ := processVideo_ok_some_inv hpv
  obtain ⟨pr, hprm, hprs⟩ : ∃ pr, pr ∈ p.2.intervals ∧ pr.2 = ivf := by
    unfold dlookup at hIv
    rcases Option.map_eq_some'.mp hIv with ⟨pr, hfind, hsnd⟩
    exact ⟨pr, List.mem_of_find?_eq_some hfind, hsnd⟩
  have hall : ∀ iv ∈ j.intervals, iv.length = 2 := by
    intro iv hiv
    rcases List.mem_map.mp (hsub.subset hiv) with ⟨f, hf, rfl⟩
    refine hsep p hp pr hprm f ?_
    rw [hprs]
    exact hf
  refine ⟨hall, hlen, ?_⟩
  intro dl cutOk out2
  cases hdl : dl j.id (rawDownloadPath out2 j.name) j.resolution with
  | false => simp [download_and_process_video, hdl, Except.isOk, Except.toBool]
  | true =>
    have hpc := processClips_eq_expectedCuts cutOk (rawDownloadPath out2 j.name)
      out2 j.name j.crops j.intervals 0 hall (by omega)
    simp [download_and_process_video, hdl, hpc, Except.map, Except.isOk,
      Except.toBool]

theorem C8_amended_intervals_pairs_under_single_separator_witness :
    (download_and_process_video (fun _ _ _ => true) (fun _ _ _ _ _ => true)
      jobOneClip "out").isOk = true :=
  ((C8_amended_intervals_pairs_under_single_separator [("X", scenarioC1)]
      "out" [jobOneClip] (by decide) rfl) jobOneClip (by simp)).2.2
    (fun _ _ _ => true) (fun _ _ _ _ _ => true) "out"

/-- C9 counterexample: a crop entry `x=-5, width=0, y=3, height=0` is
emitted unchanged, so a job's crop can hold a negative field and zero
width/height, contradicting the claimed invariant. -/
theorem C9_counterexample :
    construct_download_queue [("X", sdC9)] "out" = .ok [jobC9] ∧
    jobC9.crops = [[-5, 0, 3, 0]] ∧
    ¬((-5 : Int) ≥ 0 ∧ (0 : Int) > 0) :=
  ⟨rfl, rfl, by decide⟩

/-- C9 amended: the joiner applies `int()` to the crop fields and no
other validation — whatever integers the matched crop entry parses to,
including negative offsets and zero width/height, are emitted verbatim
in the job. -/
theorem C9_amended_no_crop_validation (subset out v u r iv vid : String)
    (xs : List String) (zs : List Int)
    (h1 : mapIntList xs = .ok zs)
    (h5 : extractVideoId u = .ok vid) :
    processVideo subset out
        { video_urls := [(v, [u])]
          crops := [(clipName v 0, xs)]
          intervals := [(v ++ ".mp4", [iv])]
          resolutions := [(v ++ ".mp4", [r])] } v u =
      .ok (some { name := subset ++ "_" ++ v
                  id := vid
                  intervals := [pySplit iv '-']
                  crops := [zs]
                  output_dir := out
                  resolution := r }) := by
  simp [processVideo, dlookup, List.find?, gatherClipsAux, mapInts, clipName,
    h1, h5, Except.map]

theorem C9_amended_no_crop_validation_witness :
    processVideo "X" "out"
        { video_urls := [("v1", ["https://youtube.com/watch?v=abc123"])]
          crops := [(clipName "v1" 0, ["-5", "0", "3", "0"])]
          intervals := [("v1" ++ ".mp4", ["00:00-00:05"])]
          resolutions := [("v1" ++ ".mp4", ["720"])] }
        "v1" "https://youtube.com/watch?v=abc123" =
      .ok (some { name := "X" ++ "_" ++ "v1"
                  id := "abc123"
                  intervals := [pySplit "00:00-00:05" '-']
                  crops := [[-5, 0, 3, 0]]
                  output_dir := "out"
                  resolution := "720" }) :=
  C9_amended_no_crop_validation "X" "out" "v1"
    "https://youtube.com/watch?v=abc123" "720" "00:00-00:05" "abc123"
    ["-5", "0", "3", "0"] [-5, 0, 3, 0] rfl rfl
